import Mathlib

/-!
Verification of the Echoes OS demo (Next.js frontend): shallow embedding of
the API route handlers and the two client pages whose logic the claims are
about, with theorems settling each claim.

Conventions of the embedding:
- Optional request values (query parameters, JSON fields) are `Option String`;
  a missing value is `none` and an empty string is `some ""`.
- JavaScript truthiness of such a value is `jsTruthy` (null and the empty
  string are falsy, every other string is truthy).
- A route handler is a pure function from its inputs to a sum describing what
  it does: return a validation error, or forward a concrete request to the
  FastAPI backend. Forwarding carries exactly the data the code puts into the
  outgoing request, so a theorem about the forwarded value is a theorem about
  what reaches the backend.
-/

/-- Truthiness of a nullable string in JavaScript: `null` and `""` are falsy. -/
def jsTruthy : Option String → Bool
  | none => false
  | some s => !s.isEmpty

/-- Shorthand for the JavaScript idiom `v || d` on a nullable string:
the default replaces both `null` and the empty string. -/
def jsOrDefault (v : Option String) (d : String) : String :=
  match v with
  | none => d
  | some s => if s.isEmpty then d else s

/-- Characters the JavaScript trim method removes (the ASCII ones; the
strings in this development contain no exotic unicode whitespace). -/
def isJsWhitespace (c : Char) : Bool :=
  c = ' ' || c = '\t' || c = '\n' || c = '\r' || c = '\x0b' || c = '\x0c'

/-- JavaScript trim on a string, modelled over its character list: drop
whitespace from the front, then from the back. -/
def jsTrim (s : String) : String :=
  String.mk (((s.data.dropWhile isJsWhitespace).reverse.dropWhile isJsWhitespace).reverse)

/-- A string is blank when trimming whitespace leaves it empty. -/
def isBlank (s : String) : Bool := (jsTrim s).data.isEmpty

/-! ### /app/api/ask/route.ts — GET handler -/

/-- Query parameters the GET handler of /api/ask builds with URLSearchParams
and forwards to the backend /ask endpoint. -/
structure ForwardedQuery where
  query : String
  limit : String
  threshold : String
deriving DecidableEq, Repr

/-- Outcome of the GET handler of /api/ask before any backend response is
seen: a 400 validation response, or a forwarded search request. -/
inductive AskGETResult
  | validationError (message : String) (status : Nat)
  | forward (params : ForwardedQuery)
deriving DecidableEq, Repr

/-- GET handler of /app/api/ask/route.ts. Reads the query, limit and
threshold search parameters, applies the defaults 5 and 0.3 via the
JavaScript or-idiom, rejects a falsy query with status 400, and otherwise
forwards query, limit and threshold to the backend. -/
def askGET (query limit threshold : Option String) : AskGETResult :=
  let limitVal := jsOrDefault limit "5"
  let thresholdVal := jsOrDefault threshold "0.3"
  if !(jsTruthy query) then
    .validationError "Query parameter is required" 400
  else
    .forward { query := query.getD "", limit := limitVal, threshold := thresholdVal }

/-- Keys of the URLSearchParams object the GET handler constructs, in the
order the code lists them; these are all the data forwarded to the search. -/
def forwardedParamList (p : ForwardedQuery) : List (String × String) :=
  [("query", p.query), ("limit", p.limit), ("threshold", p.threshold)]

/-! ### /app/api/ask/route.ts — POST handler -/

/-- Outcome of the POST handler of /api/ask before any backend response is
seen: it parses the JSON body and forwards it unchanged; there is no
validation step. -/
inductive AskPOSTResult
  | forward (body : String)
deriving DecidableEq, Repr

/-- POST handler of /app/api/ask/route.ts: the parsed body is forwarded to
the backend /ask endpoint as is, with no check on the query text. -/
def askPOST (body : String) : AskPOSTResult := .forward body

/-! ### /app/api/analyze/route.ts — POST handler (deconstruct entrypoint) -/

/-- Outcome of the POST handler of /api/analyze before any backend response
is seen: a 400 validation response, or the body forwarded to /analyze. -/
inductive AnalyzeResult
  | validationError (message : String) (status : Nat)
  | forward (content : String)
deriving DecidableEq, Repr

/-- POST handler of /app/api/analyze/route.ts: rejects with 400 when
body.content is falsy or trims to the empty string, and otherwise forwards
the body to the backend /analyze endpoint. -/
def analyzePOST (content : Option String) : AnalyzeResult :=
  if !(jsTruthy content) || isBlank (content.getD "") then
    .validationError "Content is required for analysis" 400
  else
    .forward (content.getD "")

/-! ### Claims C1, C2, C6 -/

/-- C1: when the caller of GET /api/ask omits the limit or threshold
parameter, the handler forwards the search with limit 5 and threshold 0.3,
and the forwarded parameters are exactly query, limit and threshold. -/
theorem askGET_defaults (q : String) (hq : jsTruthy (some q) = true) :
    askGET (some q) none none =
      .forward { query := q, limit := "5", threshold := "0.3" } ∧
    ∀ p : ForwardedQuery, (forwardedParamList p).map Prod.fst =
      ["query", "limit", "threshold"] := by
  refine ⟨?_, fun p => rfl⟩
  simp [askGET, jsOrDefault, hq]

/-- Witness for askGET_defaults at the concrete query string burnout. -/
theorem askGET_defaults_witness :
    jsTruthy (some "burnout") = true ∧
    (askGET (some "burnout") none none =
      .forward { query := "burnout", limit := "5", threshold := "0.3" } ∧
    ∀ p : ForwardedQuery, (forwardedParamList p).map Prod.fst =
      ["query", "limit", "threshold"]) :=
  ⟨by decide, askGET_defaults "burnout" (by decide)⟩

/-- C2 counterexample: a query of three spaces is blank after trimming, yet
the GET handler forwards it to the backend instead of failing with a
validation error, refuting the claim that blank-after-trimming queries are
never forwarded. -/
theorem askGET_blank_forwarded :
    isBlank "   " = true ∧
    askGET (some "   ") none none =
      .forward { query := "   ", limit := "5", threshold := "0.3" } := by
  constructor
  · decide
  · rfl

/-- C2 amended: the GET handler rejects a missing or empty-string query with
a 400 validation error and forwards nothing; it does not trim, so
whitespace-only queries pass through, and the POST handler forwards every
body without any blank-query validation. -/
theorem askGET_empty_rejected (q : Option String) (lim thr : Option String)
    (hq : jsTruthy q = false) :
    askGET q lim thr = .validationError "Query parameter is required" 400 ∧
    ∀ body : String, askPOST body = .forward body := by
  refine ⟨?_, fun body => rfl⟩
  simp [askGET, hq]

/-- Witness for askGET_empty_rejected at a missing query parameter. -/
theorem askGET_empty_rejected_witness :
    jsTruthy (none : Option String) = false ∧
    (askGET none none none = .validationError "Query parameter is required" 400 ∧
    ∀ body : String, askPOST body = .forward body) :=
  ⟨by decide, askGET_empty_rejected none none none (by decide)⟩

/-- C6: a deconstruct request whose content is missing or blank after
trimming is rejected by the analyze route with a 400 validation error, and
nothing is forwarded to the generation provider. -/
theorem analyzePOST_blank_rejected (content : Option String)
    (h : content = none ∨ isBlank (content.getD "") = true) :
    analyzePOST content = .validationError "Content is required for analysis" 400 := by
  rcases h with h | h
  · subst h; rfl
  · simp [analyzePOST, h]

/-- Witness for analyzePOST_blank_rejected at whitespace-only content. -/
theorem analyzePOST_blank_rejected_witness :
    ((some "   " : Option String) = none ∨
      isBlank ((some "   " : Option String).getD "") = true) ∧
    analyzePOST (some "   ") = .validationError "Content is required for analysis" 400 :=
  ⟨Or.inr (by decide), analyzePOST_blank_rejected (some "   ") (Or.inr (by decide))⟩

/-! ### /app/blueprint/page.tsx — two-stage blueprint page -/

/-- Outcome of the handleStepTwo click handler on the blueprint page: an
incomplete-input alert with no request, or the Stage 2 request the page
posts to /api/analyze. -/
inductive StepTwoResult
  | incompleteInput (message : String)
  | request (step : Nat) (basePrompts : List String) (title topics context : String)
deriving DecidableEq, Repr

/-- handleStepTwo from /app/blueprint/page.tsx: when the Stage 1 prompt list
is empty or title, topics or context is the empty string, it alerts and
returns without fetching; otherwise it posts the Stage 2 request. -/
def handleStepTwo (stepOnePrompts : List String)
    (title topics context : String) : StepTwoResult :=
  if stepOnePrompts.isEmpty || title.isEmpty || topics.isEmpty || context.isEmpty then
    .incompleteInput "All fields are required for Step 2"
  else
    .request 2 stepOnePrompts title topics context

/-- Predicate telling whether a handleStepTwo outcome issues a request to
the generation provider (via /api/analyze). -/
def issuesStepTwoRequest : StepTwoResult → Bool
  | .incompleteInput _ => false
  | .request _ _ _ _ _ => true

/-- State of the BlueprintPage component: the useState hooks that feed the
two stage handlers. -/
structure BlueprintState where
  content : String
  stepOnePrompts : List String
  stepTwoPrompt : String
  title : String
  topics : String
  context : String
deriving DecidableEq, Repr

/-- Initial state of BlueprintPage: every useState starts empty. -/
def initialBlueprintState : BlueprintState :=
  { content := "", stepOnePrompts := [], stepTwoPrompt := "",
    title := "", topics := "", context := "" }

/-- A Stage 2 request as posted by handleStepTwo to /api/analyze. -/
structure StageTwoRequest where
  basePrompts : List String
  title : String
  topics : String
  context : String
deriving DecidableEq, Repr

/-- User-visible actions on the blueprint page: editing any of the input
fields, Stage 1 completing with a prompt list from the backend, clicking the
Stage 2 button, and Stage 2 completing with a final prompt. -/
inductive BlueprintAction
  | setContent (s : String)
  | setTitle (s : String)
  | setTopics (s : String)
  | setContext (s : String)
  | stepOneRespond (prompts : List String)
  | stepTwoClick
  | stepTwoRespond (finalPrompt : String)
deriving DecidableEq, Repr

/-- One step of the blueprint page: the new component state together with
the Stage 2 request emitted by this action, if any. Only stepTwoClick can
emit a request, and it does so exactly when the guard in handleStepTwo
passes. -/
def blueprintStep (s : BlueprintState) :
    BlueprintAction → BlueprintState × Option StageTwoRequest
  | .setContent v => ({ s with content := v }, none)
  | .setTitle v => ({ s with title := v }, none)
  | .setTopics v => ({ s with topics := v }, none)
  | .setContext v => ({ s with context := v }, none)
  | .stepOneRespond prompts => ({ s with stepOnePrompts := prompts }, none)
  | .stepTwoClick =>
    match handleStepTwo s.stepOnePrompts s.title s.topics s.context with
    | .incompleteInput _ => (s, none)
    | .request _ ps t tp c => (s, some ⟨ps, t, tp, c⟩)
  | .stepTwoRespond p => ({ s with stepTwoPrompt := p }, none)

/-- Run a sequence of actions from a state, collecting every Stage 2 request
emitted along the way in order. -/
def runBlueprint (s : BlueprintState) : List BlueprintAction →
    BlueprintState × List StageTwoRequest
  | [] => (s, [])
  | a :: rest =>
    ((runBlueprint (blueprintStep s a).1 rest).1,
     (blueprintStep s a).2.toList ++ (runBlueprint (blueprintStep s a).1 rest).2)

/-! ### Claims C3 and C4 -/

/-- C3: whenever the Stage 1 prompt list is empty or title, topics or
context is missing, handleStepTwo fails with the incomplete-input alert and
issues no request to the generation provider, for every such combination. -/
theorem handleStepTwo_incomplete (ps : List String) (t tp c : String)
    (h : ps = [] ∨ t = "" ∨ tp = "" ∨ c = "") :
    handleStepTwo ps t tp c = .incompleteInput "All fields are required for Step 2" ∧
    issuesStepTwoRequest (handleStepTwo ps t tp c) = false := by
  have hguard : (ps.isEmpty || t.isEmpty || tp.isEmpty || c.isEmpty) = true := by
    rcases h with h | h | h | h <;> subst h <;>
      simp [show String.isEmpty "" = true from rfl]
  have hmain : handleStepTwo ps t tp c =
      .incompleteInput "All fields are required for Step 2" := by
    unfold handleStepTwo
    rw [if_pos hguard]
  exact ⟨hmain, by rw [hmain]; rfl⟩

/-- Witness for handleStepTwo_incomplete: an empty prompt list with all
three user fields present. -/
theorem handleStepTwo_incomplete_witness :
    (([] : List String) = [] ∨ "t" = "" ∨ "o" = "" ∨ "c" = "") ∧
    (handleStepTwo [] "t" "o" "c" =
      .incompleteInput "All fields are required for Step 2" ∧
    issuesStepTwoRequest (handleStepTwo [] "t" "o" "c") = false) :=
  ⟨Or.inl rfl, handleStepTwo_incomplete [] "t" "o" "c" (Or.inl rfl)⟩


/-- A handleStepTwo outcome that is a request carries exactly the Stage 1
prompt list, and the guard guarantees that list was not empty. -/
theorem handleStepTwo_request_spec (ps : List String) (t tp c : String)
    {n : Nat} {ps2 : List String} {t2 tp2 c2 : String}
    (h : handleStepTwo ps t tp c = .request n ps2 t2 tp2 c2) :
    ps2 = ps ∧ ps.isEmpty = false := by
  unfold handleStepTwo at h
  split at h
  · exact absurd h (by simp)
  · rename_i hg
    simp only [StepTwoResult.request.injEq] at h
    simp only [Bool.or_eq_true, not_or, Bool.not_eq_true] at hg
    refine ⟨h.2.1.symm, ?_⟩
    tauto

/-- Every single blueprint action that emits a Stage 2 request does so with
a non-empty base prompt list, because handleStepTwo guards the click. -/
theorem blueprintStep_request_nonempty (s : BlueprintState) (a : BlueprintAction)
    (r : StageTwoRequest) (h : (blueprintStep s a).2 = some r) :
    r.basePrompts ≠ [] := by
  cases a with
  | setContent v => simp [blueprintStep] at h
  | setTitle v => simp [blueprintStep] at h
  | setTopics v => simp [blueprintStep] at h
  | setContext v => simp [blueprintStep] at h
  | stepOneRespond prompts => simp [blueprintStep] at h
  | stepTwoRespond p => simp [blueprintStep] at h
  | stepTwoClick =>
    unfold blueprintStep at h
    rcases hcall : handleStepTwo s.stepOnePrompts s.title s.topics s.context with
      m | ⟨n, ps, t, tp, c⟩
    · rw [hcall] at h
      simp at h
    · rw [hcall] at h
      simp at h
      obtain ⟨hps, hempty⟩ := handleStepTwo_request_spec _ _ _ _ hcall
      subst hps
      intro hnil
      rw [← h] at hnil
      simp at hnil
      rw [hnil] at hempty
      simp at hempty

/-- C4: along every sequence of user actions from the initial blueprint page
state, every Stage 2 request emitted has a non-empty Stage 1 prompt list, so
Stage 2 can never start before Stage 1 completed with non-empty prompts. -/
theorem stage2_requires_nonempty_prompts (acts : List BlueprintAction)
    (r : StageTwoRequest)
    (h : r ∈ (runBlueprint initialBlueprintState acts).2) :
    r.basePrompts ≠ [] := by
  suffices H : ∀ (s : BlueprintState) (acts : List BlueprintAction)
      (r : StageTwoRequest), r ∈ (runBlueprint s acts).2 → r.basePrompts ≠ [] from
    H initialBlueprintState acts r h
  intro s acts r hmem
  induction acts generalizing s with
  | nil => simp [runBlueprint] at hmem
  | cons a rest ih =>
    rw [runBlueprint] at hmem
    rcases List.mem_append.mp hmem with hhead | htail
    · rcases hopt : (blueprintStep s a).2 with _ | req
      · rw [hopt] at hhead
        simp [Option.toList] at hhead
      · rw [hopt] at hhead
        simp [Option.toList] at hhead
        subst hhead
        exact blueprintStep_request_nonempty s a r hopt
    · exact ih _ htail

/-- Witness for stage2_requires_nonempty_prompts: the user pastes content,
Stage 1 responds with one prompt, the user fills the three fields, clicks
Stage 2, and the emitted request indeed has a non-empty prompt list. -/
theorem stage2_requires_nonempty_prompts_witness :
    (⟨["write a thread"], "t", "o", "c"⟩ : StageTwoRequest) ∈
      (runBlueprint initialBlueprintState
        [.setContent "post", .stepOneRespond ["write a thread"],
         .setTitle "t", .setTopics "o", .setContext "c", .stepTwoClick]).2 ∧
    (⟨["write a thread"], "t", "o", "c"⟩ : StageTwoRequest).basePrompts ≠ [] :=
  ⟨by decide, stage2_requires_nonempty_prompts
    [.setContent "post", .stepOneRespond ["write a thread"],
     .setTitle "t", .setTopics "o", .setContext "c", .stepTwoClick]
    ⟨["write a thread"], "t", "o", "c"⟩ (by decide)⟩

/-! ### /app/api/upload/route.ts — POST handler -/

/-- Shape of an upload request as the route distinguishes it: multipart form
data, or a JSON body with an optional type field. -/
inductive UploadKind
  | multipart
  | jsonBody (bodyType : Option String)
deriving DecidableEq, Repr

/-- Backend endpoint the POST handler of /app/api/upload/route.ts forwards
to: multipart goes to /upload; a JSON body goes to /upload/text when its
type field is the string text, to /upload/url when it is the string url,
and to /upload otherwise. -/
def uploadEndpoint : UploadKind → String
  | .multipart => "/upload"
  | .jsonBody bodyType =>
    if bodyType = some "text" then "/upload/text"
    else if bodyType = some "url" then "/upload/url"
    else "/upload"

/-- Backend calls the handler makes for one request: each branch of the code
performs exactly one fetch, to the endpoint chosen above. -/
def uploadCalls (k : UploadKind) : List String := [uploadEndpoint k]

/-! ### /app/ask/page.tsx — search history -/

/-- History update from handleSearch in /app/ask/page.tsx: prepend the
query, drop earlier copies of the same query, and keep the first five
entries. -/
def updateHistory (searchQuery : String) (prev : List String) : List String :=
  (searchQuery :: prev.filter (fun q => q ≠ searchQuery)).take 5

/-- handleSearch returns before any state change when the query is blank
after trimming; otherwise it applies the history update. -/
def handleSearchUpdate (searchQuery : String) (prev : List String) : List String :=
  if isBlank searchQuery then prev else updateHistory searchQuery prev

/-- Search history after a sequence of handleSearch calls, starting from the
empty initial useState. -/
def historyAfter (searches : List String) : List String :=
  searches.foldl (fun h q => handleSearchUpdate q h) []

/-! ### Failure responses of the API routes -/

/-- Message of the error thrown when the backend answers non-ok, exactly as
the template literal in the routes builds it from the backend status and the
raw backend response body. -/
def fastapiErrorMessage (status : Nat) (errorText : String) : String :=
  "FastAPI error: " ++ toString status ++ " - " ++ errorText

/-- Body of the 500 response of the ask route catch handler. -/
structure AskFailureResponse where
  error : String
  details : String
  results : List String
  totalFound : Nat
  searchTimeMs : Nat
deriving DecidableEq, Repr

/-- Catch handler of GET /api/ask, as the code writes it: a fixed error
kind, the message of the caught error as details, and empty result fields. -/
def askFailureResponse (details : String) : AskFailureResponse :=
  { error := "Memory search failed", details := details,
    results := [], totalFound := 0, searchTimeMs := 0 }

/-- Failure response of GET /api/ask when the backend answered non-ok: the
thrown FastAPI error message, raw backend body included, becomes details. -/
def askGETBackendFailure (status : Nat) (errorText : String) : AskFailureResponse :=
  askFailureResponse (fastapiErrorMessage status errorText)

/-- Analysis block hard-coded in the catch handler of the echoes-process
route: contentType unknown, confidence 0, no insights. -/
structure CatchAnalysis where
  contentType : String
  confidence : ℚ
  insights : List String
deriving DecidableEq, Repr

/-- Body of the 500 response of the echoes-process route catch handler. -/
structure EchoesFailureResponse where
  error : String
  details : String
  memories : List String
  blueprint : List String
  analysis : CatchAnalysis
deriving DecidableEq, Repr

/-- Catch handler of POST /api/echoes-process, exactly as the code builds
it: fixed error kind, caught message as details, empty memories and
blueprint, and the unknown analysis block. -/
def echoesProcessFailureResponse (details : String) : EchoesFailureResponse :=
  { error := "Echoes processing failed", details := details,
    memories := [], blueprint := [],
    analysis := { contentType := "unknown", confidence := 0, insights := [] } }

/-! ### Unified orchestrator, modelled from the spec -/

/-- Modelled from the spec: classification of an input by the unified
orchestrator, whose implementation is the FastAPI /echoes-process endpoint
and is not part of this repository. -/
inductive ContentKind
  | query
  | content
  | mixed
deriving DecidableEq, Repr

/-- Modelled from the spec: advisory analysis attached to every successful
unified response. -/
structure OrchAnalysis where
  contentKind : ContentKind
  confidence : ℚ
  insights : List String
deriving DecidableEq, Repr

/-- Outcome of one orchestrator sub-path (retrieval or blueprint): a result
list, or a failure of that path. -/
inductive PathOutcome
  | ok (items : List String)
  | failed
deriving DecidableEq, Repr

/-- Unified response of the orchestrator. -/
structure UnifiedResult where
  memories : List String
  blueprint : List String
  analysis : OrchAnalysis
deriving DecidableEq, Repr

/-- Note recorded in analysis.insights when the retrieval path fails. -/
def retrievalDegradedNote : String :=
  "memory retrieval failed; memories degraded to an empty list"

/-- Note recorded in analysis.insights when the blueprint path fails. -/
def blueprintDegradedNote : String :=
  "blueprint reconstruction failed; blueprint degraded to an empty list"

/-- Modelled from the spec: merge of one sub-path by the orchestrator — a
failed path degrades to the empty list together with an insight note. -/
def mergePath (o : PathOutcome) (note : String) : List String × List String :=
  match o with
  | .ok items => (items, [])
  | .failed => ([], [note])

/-- Modelled from the spec: the orchestrator behind process(input) — a total
classification failure is the only hard error; otherwise the two sub-path
outcomes are merged, each failure degrading to an empty list plus a note in
analysis.insights. -/
def processOrchestrator (classification : Option OrchAnalysis)
    (retrieval blueprintPath : PathOutcome) : Except String UnifiedResult :=
  match classification with
  | none => .error "classification failed"
  | some a =>
    .ok { memories := (mergePath retrieval retrievalDegradedNote).1,
          blueprint := (mergePath blueprintPath blueprintDegradedNote).1,
          analysis := { a with insights :=
            a.insights ++ (mergePath retrieval retrievalDegradedNote).2
              ++ (mergePath blueprintPath blueprintDegradedNote).2 } }

/-- Predicate telling whether an orchestrator outcome surfaces a hard error
to the caller. -/
def surfacesHardError : Except String UnifiedResult → Bool
  | .error _ => true
  | .ok _ => false

/-! ### Claims C5, C7, C8, C9, C10 -/

/-- C5: with a successful classification the orchestrator never surfaces a
hard error, a failed retrieval path degrades to empty memories with its note
in analysis.insights, a failed blueprint path degrades likewise, and a total
classification failure is a hard error. -/
theorem process_degrades_not_fails (a : OrchAnalysis) (r b : PathOutcome) :
    surfacesHardError (processOrchestrator (some a) r b) = false ∧
    (r = .failed → ∀ u, processOrchestrator (some a) r b = .ok u →
      u.memories = [] ∧ retrievalDegradedNote ∈ u.analysis.insights) ∧
    (b = .failed → ∀ u, processOrchestrator (some a) r b = .ok u →
      u.blueprint = [] ∧ blueprintDegradedNote ∈ u.analysis.insights) ∧
    surfacesHardError (processOrchestrator none r b) = true := by
  refine ⟨rfl, ?_, ?_, rfl⟩
  · rintro rfl u hu
    simp only [processOrchestrator, Except.ok.injEq] at hu
    subst hu
    refine ⟨rfl, ?_⟩
    simp [mergePath]
  · rintro rfl u hu
    simp only [processOrchestrator, Except.ok.injEq] at hu
    subst hu
    refine ⟨?_, ?_⟩
    · cases r <;> rfl
    · simp [mergePath]

/-- Unified result produced when classification succeeds with an empty
insight list and both sub-paths fail: empty lists plus the two notes. -/
def degradedWitnessResult : UnifiedResult :=
  { memories := [], blueprint := [],
    analysis := ⟨.query, 1/2, [retrievalDegradedNote, blueprintDegradedNote]⟩ }

/-- Witness for process_degrades_not_fails: both sub-paths fail under a
successful classification; the result is still ok, with empty lists and both
degradation notes recorded. -/
theorem process_degrades_not_fails_witness :
    (PathOutcome.failed = PathOutcome.failed) ∧
    (degradedWitnessResult.memories = [] ∧
      retrievalDegradedNote ∈ degradedWitnessResult.analysis.insights) :=
  ⟨rfl, (process_degrades_not_fails ⟨.query, 1/2, []⟩ .failed .failed).2.1 rfl
    degradedWitnessResult rfl⟩

/-- C7 counterexample: the analysis block the echoes-process route returns
on its failure path has contentType unknown, which is outside the claimed
enum of query, content and mixed. -/
theorem failureAnalysis_outside_enum :
    (echoesProcessFailureResponse "backend down").analysis.contentType ∉
      (["query", "content", "mixed"] : List String) := by
  decide

/-- C7 amended: analysis blocks carry confidence in the closed interval
zero-one, but on the failure path contentType is the literal string unknown
rather than a member of the enum. -/
theorem failureAnalysis_amended (details : String) :
    (echoesProcessFailureResponse details).analysis.contentType = "unknown" ∧
    0 ≤ (echoesProcessFailureResponse details).analysis.confidence ∧
    (echoesProcessFailureResponse details).analysis.confidence ≤ 1 :=
  ⟨rfl, le_refl 0, by norm_num [echoesProcessFailureResponse]⟩

/-- C8 counterexample: when the backend answers status 500 with a raw
traceback body, the ask route failure response embeds that raw body in its
details string, so raw provider output is exposed to the caller. -/
theorem askFailure_leaks_backend_body :
    (askGETBackendFailure 500 "Traceback: boom").details =
      "FastAPI error: 500 - Traceback: boom" ∧
    ("Traceback: boom").data <:+
      (askGETBackendFailure 500 "Traceback: boom").details.data := by
  refine ⟨rfl, ⟨("FastAPI error: 500 - ").data, ?_⟩⟩
  rfl

/-- C8 amended: every failure response of the ask and echoes-process routes
is a structured error with a fixed machine-readable kind and a human-readable
details string, but that details string embeds the raw backend response body
verbatim after the status code. -/
theorem failure_responses_structured (status : Nat) (errorText : String) :
    (askGETBackendFailure status errorText).error = "Memory search failed" ∧
    (askGETBackendFailure status errorText).details =
      "FastAPI error: " ++ toString status ++ " - " ++ errorText ∧
    (echoesProcessFailureResponse (fastapiErrorMessage status errorText)).error =
      "Echoes processing failed" ∧
    (echoesProcessFailureResponse (fastapiErrorMessage status errorText)).details =
      "FastAPI error: " ++ toString status ++ " - " ++ errorText :=
  ⟨rfl, rfl, rfl, rfl⟩

/-- C9: the upload route sends every multipart request to /upload, JSON
bodies typed text to /upload/text, typed url to /upload/url, anything else
to /upload, and makes exactly one backend call per request. -/
theorem upload_dispatch :
    uploadEndpoint .multipart = "/upload" ∧
    uploadEndpoint (.jsonBody (some "text")) = "/upload/text" ∧
    uploadEndpoint (.jsonBody (some "url")) = "/upload/url" ∧
    (∀ bt : Option String, bt ≠ some "text" → bt ≠ some "url" →
      uploadEndpoint (.jsonBody bt) = "/upload") ∧
    ∀ k : UploadKind, (uploadCalls k).length = 1 := by
  refine ⟨rfl, rfl, rfl, ?_, fun k => rfl⟩
  intro bt h1 h2
  simp [uploadEndpoint, h1, h2]

/-- Witness for upload_dispatch: a JSON body typed pdf is neither text nor
url and goes to /upload, with one backend call. -/
theorem upload_dispatch_witness :
    ((some "pdf" : Option String) ≠ some "text") ∧
    ((some "pdf" : Option String) ≠ some "url") ∧
    uploadEndpoint (.jsonBody (some "pdf")) = "/upload" ∧
    (uploadCalls .multipart).length = 1 :=
  ⟨by decide, by decide,
    upload_dispatch.2.2.2.1 (some "pdf") (by decide) (by decide),
    upload_dispatch.2.2.2.2 .multipart⟩

/-- The history update never keeps more than five entries. -/
theorem updateHistory_length (q : String) (prev : List String) :
    (updateHistory q prev).length ≤ 5 := by
  unfold updateHistory
  rw [List.length_take]
  exact min_le_left _ _

/-- The just-searched query is always the first history entry. -/
theorem updateHistory_head (q : String) (prev : List String) :
    (updateHistory q prev).head? = some q := by
  rfl

/-- The history update preserves freedom from duplicates. -/
theorem updateHistory_nodup (q : String) (prev : List String)
    (h : prev.Nodup) : (updateHistory q prev).Nodup := by
  apply List.Sublist.nodup (List.take_sublist 5 _)
  refine List.nodup_cons.mpr ⟨?_, h.filter _⟩
  intro hmem
  rcases List.mem_filter.mp hmem with ⟨-, hq⟩
  simp at hq

/-- Folding handleSearch over any searches from a duplicate-free history
keeps the history duplicate-free. -/
theorem foldl_history_nodup (searches : List String) (init : List String)
    (h : init.Nodup) :
    (searches.foldl (fun h q => handleSearchUpdate q h) init).Nodup := by
  induction searches generalizing init with
  | nil => exact h
  | cons a rest ih =>
    refine ih _ ?_
    show (handleSearchUpdate a init).Nodup
    unfold handleSearchUpdate
    split
    · exact h
    · exact updateHistory_nodup a init h

/-- C10: after any past searches followed by one more completed (non-blank)
search, the history has at most five entries, no duplicates, and the
just-searched query first. -/
theorem searchHistory_invariant (searches : List String) (q : String)
    (hq : isBlank q = false) :
    (historyAfter (searches ++ [q])).length ≤ 5 ∧
    (historyAfter (searches ++ [q])).Nodup ∧
    (historyAfter (searches ++ [q])).head? = some q := by
  have hfold : historyAfter (searches ++ [q]) =
      handleSearchUpdate q (historyAfter searches) := by
    unfold historyAfter
    rw [List.foldl_append]
    rfl
  have hupd : handleSearchUpdate q (historyAfter searches) =
      updateHistory q (historyAfter searches) := by
    unfold handleSearchUpdate
    rw [if_neg (by simp [hq])]
  rw [hfold, hupd]
  exact ⟨updateHistory_length _ _,
    updateHistory_nodup _ _ (foldl_history_nodup searches [] List.nodup_nil),
    updateHistory_head _ _⟩

/-- Witness for searchHistory_invariant: seven earlier searches with a
repeat, then the query burnout, which is not blank. -/
theorem searchHistory_invariant_witness :
    isBlank "burnout" = false ∧
    ((historyAfter (["a", "b", "c", "a", "d", "e", "f"] ++ ["burnout"])).length ≤ 5 ∧
    (historyAfter (["a", "b", "c", "a", "d", "e", "f"] ++ ["burnout"])).Nodup ∧
    (historyAfter (["a", "b", "c", "a", "d", "e", "f"] ++ ["burnout"])).head? =
      some "burnout") :=
  ⟨by decide, searchHistory_invariant ["a", "b", "c", "a", "d", "e", "f"]
    "burnout" (by decide)⟩
